import Mathlib

/-!
# Verification of the nexus-apex MCP server (src/src/server.js)

Shallow embedding of the Express handlers in `src/src/server.js`.

Modelling conventions:
* The SQLite database is a record of lists, one per table, kept in insertion
  order.  `INSERT` appends; `SELECT COUNT(*)` is `List.length`;
  `SELECT * WHERE id = ?` is `List.find?` on the primary key.  `createdAt`
  values come from a monotone wall clock (`datetime("now")`), so
  `ORDER BY createdAt DESC` is modelled by reversing the insertion order.
* JavaScript numbers are modelled as `ℚ` (timestamps, progress, strength)
  or `ℤ` (integer scores after `Math.round`).  `Math.round x` is
  `round x = ⌊x + 1/2⌋`, which agrees with JS `Math.round` on all reals.
  `x.toFixed(2)` followed by `parseFloat` is `round2`.
* Request-body fields are `Option`-typed: `none` is an absent (undefined)
  field.  JS truthiness on strings (`undefined`, `null`, `""` are falsy) is
  `truthy`; `x || d` on strings is `orDefault x d`; an ES destructuring
  default (`{ x = d }`, applied only when the field is undefined) is
  `Option.getD`.  A numeric field is falsy exactly when it is `0`.
* `Math.random()` draws are inputs of the handlers (an oracle supplied by
  the environment); theorems quantify over them within the ranges the
  expression `Math.round(Math.random() * span + lo)` can produce.
* The `configJson` column stores `JSON.stringify` of a plain string record;
  `JSON.parse ∘ JSON.stringify` is the identity on such records, so the
  stored blob is modelled by the structured value it serializes.
* Handlers return a `Resp` (HTTP status + JSON body) together with the
  updated database; storage-layer failures (the 500 path) are out of scope
  per the spec, which treats persistence as a reliable collaborator.
-/

namespace Nexus

/-- JS truthiness for a string-typed request field: an absent (undefined)
field and the empty string are falsy. -/
def truthy : Option String → Bool
  | none => false
  | some s => s != ""

/-- The JS expression `x || d` for a string-or-undefined field `x`. -/
def orDefault (x : Option String) (d : String) : String :=
  match x with
  | none => d
  | some s => if s = "" then d else s

/-- `parseFloat(x.toFixed(2))`: rounding to two decimal digits. -/
def round2 (x : ℚ) : ℚ := (round (100 * x) : ℤ) / 100

/-- The progress computation of both poll handlers
(`Math.min(100, (elapsed / durationMs) * 100)`, then `toFixed(2)`):
there is a cap at 100 but no lower clamp at 0. -/
def progressOf (now createdAt durationMs : ℚ) : ℚ :=
  round2 (min 100 ((now - createdAt) / durationMs * 100))

/-- Modelled from the spec's `ProgressEstimator` pseudocode, which clamps at
both ends: `progressPercent = clamp(0, 100, (elapsed / expectedDurationMs) * 100)`,
rounded to 2 decimal digits for presentation. -/
def specProgress (now createdAt durationMs : ℚ) : ℚ :=
  round2 (max 0 (min 100 ((now - createdAt) / durationMs * 100)))

/-- An HTTP response: either an error status with an `{ error: message }`
body, or a 200 with a JSON body of type `α`. -/
inductive Resp (α : Type) where
  | err (status : Nat) (msg : String)
  | ok (body : α)
deriving DecidableEq

/-- The HTTP status code of a response (success responses use `res.json`,
i.e. status 200). -/
def Resp.statusCode {α : Type} : Resp α → Nat
  | .err s _ => s
  | .ok _ => 200

/-- A row of the `lora_trainings` table. -/
structure LoraTraining where
  id : String
  characterName : String
  status : String
  progress : ℚ
  strength : ℚ
  epochs : ℤ
  createdAt : ℚ
deriving DecidableEq

/-- A parsed JSON prompt-configuration object (the value serialized into the
`configJson` column and echoed in the response). -/
structure ConfigObj where
  character : String
  environment : String
  lighting : String
  camera : String
  style : String
  negativePrompt : String
deriving DecidableEq

/-- A row of the `json_configs` table.  `configJson` holds the serialized
blob, modelled by the record it parses back to. -/
structure JsonConfigRecord where
  id : String
  character : String
  environment : String
  lighting : String
  camera : String
  style : String
  negativePrompt : String
  configJson : ConfigObj
  createdAt : ℚ
deriving DecidableEq

/-- A row of the `image_scores` table. -/
structure ImageScore where
  id : String
  imageUrl : String
  drama : ℤ
  saliency : ℤ
  emotion : ℤ
  depth : ℤ
  signature : ℤ
  total : ℤ
  feedback : String
  createdAt : ℚ
deriving DecidableEq

/-- A row of the `anatomy_validations` table (`issues` holds the parsed
JSON array stored in the `issues` column). -/
structure AnatomyValidation where
  id : String
  imageUrl : String
  handsScore : ℤ
  faceScore : ℤ
  bodyScore : ℤ
  overallScore : ℤ
  issues : List String
  createdAt : ℚ
deriving DecidableEq

/-- A row of the `remotion_deployments` table. -/
structure RemotionDeployment where
  id : String
  configId : String
  status : String
  progress : ℚ
  duration : ℤ
  effects : String
  createdAt : ℚ
deriving DecidableEq

/-- The database: the record tables created by `initializeDatabase`, each a
list in insertion order.  (The `users` table has no route writing to it and
is omitted.) -/
structure DB where
  lora_trainings : List LoraTraining
  json_configs : List JsonConfigRecord
  image_scores : List ImageScore
  anatomy_validations : List AnatomyValidation
  remotion_deployments : List RemotionDeployment
deriving DecidableEq

/-- The freshly initialized database: every table empty. -/
def emptyDB : DB := ⟨[], [], [], [], []⟩

/-! ## Handlers -/

/-- Request body of `POST /api/train-lora`. -/
structure TrainLoraBody where
  characterName : Option String
  baseModel : Option String
  strength : Option ℚ
  epochs : Option ℤ

/-- Success body of `POST /api/train-lora`. -/
structure TrainLoraResp where
  jobId : String
  status : String
  progress : ℚ
  characterName : String
  baseModel : String
  strength : ℚ
  epochs : ℤ
  modelPath : String
  eta : String
deriving DecidableEq

/-- `POST /api/train-lora`.  Destructuring defaults `baseModel`, `strength`,
`epochs`; 400 when `characterName` is falsy; otherwise inserts one row and
responds with the job fields.  `jobId` (a fresh UUID) and `now` (the wall
clock behind `datetime("now")`) are supplied by the environment. -/
def trainLoraHandler (body : TrainLoraBody) (jobId : String) (now : ℚ) (db : DB) :
    Resp TrainLoraResp × DB :=
  let baseModel := body.baseModel.getD "FLUX.1-Pro-Ultra"
  let strength := body.strength.getD (17/20)
  let epochs := body.epochs.getD 100
  if truthy body.characterName then
    let name := body.characterName.getD ""
    let row : LoraTraining := ⟨jobId, name, "training", 0, strength, epochs, now⟩
    (.ok ⟨jobId, "training", 0, name, baseModel, strength, epochs,
       "/models/" ++ name.toLower ++ "_lora_v1.safetensors", "2-3 minutes"⟩,
     { db with lora_trainings := db.lora_trainings ++ [row] })
  else (.err 400 "characterName is required", db)

/-- `GET /api/train-lora/:jobId`: fetch the row, recompute progress from
elapsed time with the fixed 120 000 ms training duration.  Read-only. -/
def pollTrainLoraHandler (jobId : String) (now : ℚ) (db : DB) : Resp LoraTraining :=
  match db.lora_trainings.find? (fun r => r.id == jobId) with
  | none => .err 404 "Training not found"
  | some training => .ok { training with progress := progressOf now training.createdAt 120000 }

/-- Request body of `POST /api/generate-json`. -/
structure GenerateJsonBody where
  character : Option String
  environment : Option String
  lighting : Option String
  camera : Option String
  style : Option String
  negativePrompt : Option String

/-- Success body of `POST /api/generate-json`. -/
structure GenerateJsonResp where
  id : String
  jsonConfig : ConfigObj
deriving DecidableEq

/-- `POST /api/generate-json`: 400 unless `character`, `environment` and
`lighting` are all truthy; builds the `jsonConfig` object with `||`
defaults, and inserts the structured columns (recomputing the same `||`
defaults) together with `JSON.stringify(jsonConfig)`. -/
def generateJsonHandler (body : GenerateJsonBody) (configId : String) (now : ℚ) (db : DB) :
    Resp GenerateJsonResp × DB :=
  if truthy body.character && truthy body.environment && truthy body.lighting then
    let jsonConfig : ConfigObj :=
      ⟨body.character.getD "", body.environment.getD "", body.lighting.getD "",
       orDefault body.camera "Standard", orDefault body.style "Cinematic",
       orDefault body.negativePrompt "deformed, blurry, low quality"⟩
    let row : JsonConfigRecord :=
      ⟨configId, body.character.getD "", body.environment.getD "", body.lighting.getD "",
       orDefault body.camera "Standard", orDefault body.style "Cinematic",
       orDefault body.negativePrompt "deformed, blurry, low quality", jsonConfig, now⟩
    (.ok ⟨configId, jsonConfig⟩, { db with json_configs := db.json_configs ++ [row] })
  else (.err 400 "character, environment, and lighting are required", db)

/-- The image-score quality banding on the rounded total: the `let quality
... if/else` chain of the `POST /api/score-image` handler, returning the
band together with its feedback text. -/
def qualityBand (total : ℤ) : String × String :=
  if 85 ≤ total then ("Excellent", "Masterpiece level! All dimensions are outstanding.")
  else if 75 ≤ total then ("Good", "Consider: enhance saliency, add depth, improve drama")
  else if 60 ≤ total then ("Fair", "Work on composition, lighting, and focus")
  else ("Weak", "Major improvements needed in multiple areas")

/-- Success body of `POST /api/score-image`. -/
structure ScoreImageResp where
  id : String
  imageUrl : String
  drama : ℤ
  saliency : ℤ
  emotion : ℤ
  depth : ℤ
  signature : ℤ
  total : ℤ
  quality : String
  feedback : String
  suggestions : List String
deriving DecidableEq

/-- `POST /api/score-image`: 400 unless `imageUrl` is truthy; the five
dimension draws (`Math.round(Math.random() * 30 + lo)`) are environment
inputs; the total is the mean rounded to the nearest integer; the band and
feedback come from `qualityBand`; one row is inserted. -/
def scoreImageHandler (imageUrl : Option String) (drama saliency emotion depth signature : ℤ)
    (scoreId : String) (now : ℚ) (db : DB) : Resp ScoreImageResp × DB :=
  if truthy imageUrl then
    let url := imageUrl.getD ""
    let total : ℤ := round ((drama + saliency + emotion + depth + signature : ℚ) / 5)
    let qf := qualityBand total
    let row : ImageScore := ⟨scoreId, url, drama, saliency, emotion, depth, signature, total, qf.2, now⟩
    (.ok ⟨scoreId, url, drama, saliency, emotion, depth, signature, total, qf.1, qf.2,
       ["Increase contrast for more drama", "Add focal point for better saliency",
        "Layer composition for depth"]⟩,
     { db with image_scores := db.image_scores ++ [row] })
  else (.err 400 "imageUrl is required", db)

/-- `GET /api/scores`: `SELECT * FROM image_scores ORDER BY createdAt DESC
LIMIT 10` (reverse insertion order, first 10), and `total` is the length of
the returned list. -/
def scoresHandler (db : DB) : List ImageScore × Nat :=
  let scores := db.image_scores.reverse.take 10
  (scores, scores.length)

/-- Per-region detail for `hands` in the anatomy-validation response. -/
structure HandsDetail where
  detected : Bool
  quality : ℤ
  issues : List String
  status : String
deriving DecidableEq

/-- Per-region detail for `face` in the anatomy-validation response. -/
structure FaceDetail where
  detected : Bool
  symmetry : ℤ
  proportions : String
  status : String
deriving DecidableEq

/-- Per-region detail for `body` in the anatomy-validation response. -/
structure BodyDetail where
  detected : Bool
  posture : String
  proportions : String
  status : String
deriving DecidableEq

/-- Success body of `POST /api/validate-anatomy`. -/
structure AnatomyResp where
  id : String
  imageUrl : String
  hands : HandsDetail
  face : FaceDetail
  body : BodyDetail
  overallScore : ℤ
  verdict : String
deriving DecidableEq

/-- `POST /api/validate-anatomy`: 400 unless `imageUrl` is truthy; the three
region draws are environment inputs; `overallScore` is their mean rounded
to the nearest integer; verdict threshold 90 and issue threshold 85 are on
the aggregate, while each region's `status`/`issues` compares that region's
own score against 90; one row is inserted. -/
def validateAnatomyHandler (imageUrl : Option String) (handsScore faceScore bodyScore : ℤ)
    (validationId : String) (now : ℚ) (db : DB) : Resp AnatomyResp × DB :=
  if truthy imageUrl then
    let url := imageUrl.getD ""
    let overallScore : ℤ := round ((handsScore + faceScore + bodyScore : ℚ) / 3)
    let verdict :=
      if 90 ≤ overallScore then "Excellent anatomy! ✅"
      else "Good anatomy. Minor adjustments possible."
    let issues :=
      if overallScore < 85 then ["Consider hand pose", "Adjust shoulder width"] else []
    let row : AnatomyValidation :=
      ⟨validationId, url, handsScore, faceScore, bodyScore, overallScore, issues, now⟩
    (.ok ⟨validationId, url,
       ⟨true, handsScore, if handsScore < 90 then ["Finger positioning"] else [],
        if 90 ≤ handsScore then "Perfect" else "Good"⟩,
       ⟨true, faceScore, "Correct", if 90 ≤ faceScore then "Symmetric" else "Acceptable"⟩,
       ⟨true, "Natural", "Proportional", if 90 ≤ bodyScore then "Perfect" else "Good"⟩,
       overallScore, verdict⟩,
     { db with anatomy_validations := db.anatomy_validations ++ [row] })
  else (.err 400 "imageUrl is required", db)

/-- Request body of `POST /api/deploy-remotion`: `jsonConfig?.id` collapses
the optional `jsonConfig` object to its (optional) `id`. -/
structure DeployBody where
  jsonConfigId : Option String
  duration : Option ℤ
  effects : Option String

/-- Success body of `POST /api/deploy-remotion`. -/
structure DeployResp where
  jobId : String
  status : String
  progress : ℚ
  duration : ℤ
  effects : String
  vercelUrl : String
  videoPath : String
  eta : String
deriving DecidableEq

/-- `POST /api/deploy-remotion`.  The destructuring default `duration = 15`
fires when the field is absent, so the `if (!duration)` check only rejects
a request whose body carries a falsy `duration` (i.e. `0`); `configId` is
`jsonConfig?.id || uuidv4()`.  One row is inserted on success.  `jobId` and
`freshConfigId` are the two UUIDs the handler may draw. -/
def deployRemotionHandler (body : DeployBody) (jobId freshConfigId : String) (now : ℚ)
    (db : DB) : Resp DeployResp × DB :=
  let duration := body.duration.getD 15
  let effects := body.effects.getD "None"
  if duration = 0 then (.err 400 "duration is required", db)
  else
    let configId := orDefault body.jsonConfigId freshConfigId
    let row : RemotionDeployment := ⟨jobId, configId, "deploying", 0, duration, effects, now⟩
    (.ok ⟨jobId, "deploying", 0, duration, effects,
       "https://nexus-apex-video-" ++ jobId.take 8 ++ ".vercel.app",
       "/videos/output_" ++ jobId ++ ".mp4", "3-5 minutes"⟩,
     { db with remotion_deployments := db.remotion_deployments ++ [row] })

/-- `GET /api/deploy-remotion/:jobId`: fetch the row, recompute progress
from elapsed time with the fixed 180 000 ms deployment duration. -/
def pollDeployHandler (jobId : String) (now : ℚ) (db : DB) : Resp RemotionDeployment :=
  match db.remotion_deployments.find? (fun r => r.id == jobId) with
  | none => .err 404 "Deployment not found"
  | some deployment =>
      .ok { deployment with progress := progressOf now deployment.createdAt 180000 }

/-- Body of `GET /api/stats`: one `SELECT COUNT(*)` per reported table.
The handler queries only these four tables (`anatomy_validations` and
`users` are not reported). -/
structure StatsResp where
  loraTrainings : Nat
  jsonConfigs : Nat
  imageScores : Nat
  remotionDeployments : Nat
deriving DecidableEq

/-- `GET /api/stats`. -/
def statsHandler (db : DB) : StatsResp :=
  ⟨db.lora_trainings.length, db.json_configs.length,
   db.image_scores.length, db.remotion_deployments.length⟩

/-! ## Traces of creation requests -/

/-- A creation request, carrying the request body together with the
environment inputs the handler consumes (fresh UUIDs, the wall clock, and
the random draws). -/
inductive Request where
  | trainLora (body : TrainLoraBody) (jobId : String) (now : ℚ)
  | generateJson (body : GenerateJsonBody) (configId : String) (now : ℚ)
  | scoreImage (imageUrl : Option String) (drama saliency emotion depth signature : ℤ)
      (scoreId : String) (now : ℚ)
  | validateAnatomy (imageUrl : Option String) (handsScore faceScore bodyScore : ℤ)
      (validationId : String) (now : ℚ)
  | deployRemotion (body : DeployBody) (jobId freshConfigId : String) (now : ℚ)

/-- The database after serving one creation request. -/
def step (db : DB) : Request → DB
  | .trainLora body jobId now => (trainLoraHandler body jobId now db).2
  | .generateJson body configId now => (generateJsonHandler body configId now db).2
  | .scoreImage url d s e dp sg scoreId now =>
      (scoreImageHandler url d s e dp sg scoreId now db).2
  | .validateAnatomy url h f b validationId now =>
      (validateAnatomyHandler url h f b validationId now db).2
  | .deployRemotion body jobId freshConfigId now =>
      (deployRemotionHandler body jobId freshConfigId now db).2

/-- The database after serving a sequence of creation requests, starting
from the freshly initialized store. -/
def run (reqs : List Request) : DB := reqs.foldl step emptyDB

/-- A `POST /api/train-lora` request that passes validation (these are the
requests that insert a row and return 200). -/
def Request.isTrainSuccess : Request → Bool
  | .trainLora body _ _ => truthy body.characterName
  | _ => false

/-- A `POST /api/generate-json` request that passes validation. -/
def Request.isConfigSuccess : Request → Bool
  | .generateJson body _ _ =>
      truthy body.character && truthy body.environment && truthy body.lighting
  | _ => false

/-- A `POST /api/score-image` request that passes validation. -/
def Request.isScoreSuccess : Request → Bool
  | .scoreImage url _ _ _ _ _ _ _ => truthy url
  | _ => false

/-- A `POST /api/validate-anatomy` request that passes validation. -/
def Request.isAnatomySuccess : Request → Bool
  | .validateAnatomy url _ _ _ _ _ => truthy url
  | _ => false

/-- A `POST /api/deploy-remotion` request that passes validation (after the
destructuring default, only an explicit `duration` of `0` is rejected). -/
def Request.isDeploySuccess : Request → Bool
  | .deployRemotion body _ _ _ => body.duration.getD 15 != 0
  | _ => false

/-- The quality band of a `POST /api/score-image` response, when it is a
success response. -/
def scoreRespQuality (out : Resp ScoreImageResp × DB) : Option String :=
  match out.1 with
  | .ok r => some r.quality
  | .err _ _ => none

/-- The rounded total of a `POST /api/score-image` response, when it is a
success response. -/
def scoreRespTotal (out : Resp ScoreImageResp × DB) : Option ℤ :=
  match out.1 with
  | .ok r => some r.total
  | .err _ _ => none

/-! ## Helper lemmas -/

/-- `round` is monotone on `ℚ`. -/
theorem round_le_of_le {x y : ℚ} (h : x ≤ y) : round x ≤ round y := by
  rw [round_eq, round_eq]
  exact Int.floor_mono (by linarith)

/-- `round2` is monotone. -/
theorem round2_le_of_le {x y : ℚ} (h : x ≤ y) : round2 x ≤ round2 y := by
  unfold round2
  have h1 := round_le_of_le (show 100 * x ≤ 100 * y by linarith)
  have h2 : ((round (100 * x) : ℤ) : ℚ) ≤ ((round (100 * y) : ℤ) : ℚ) := by exact_mod_cast h1
  linarith

/-- `round2` fixes `100`. -/
theorem round2_hundred : round2 100 = 100 := by norm_num [round2, round_eq]

/-- `round2` fixes `0`. -/
theorem round2_zero : round2 0 = 0 := by norm_num [round2, round_eq]

/-! ## Claim theorems -/

/-- C1, counterexample: the poll handlers compute `Math.min(100, ...)` with
no lower clamp, so at a poll time earlier than the stored `createdAt`
(e.g. clock skew between `datetime("now")` and `new Date()`) the returned
progress is negative and differs from the spec's clamped value: polling a
training job created at t = 200000 at time 0 returns progress −166.67,
refuting "progress is never negative for any value of `now`". -/
theorem C1_counterexample :
    progressOf 0 200000 120000 < 0 ∧
    progressOf 0 200000 120000 ≠ specProgress 0 200000 120000 ∧
    pollTrainLoraHandler "job-1" 0
      { emptyDB with lora_trainings := [⟨"job-1", "Hero", "training", 0, 17/20, 100, 200000⟩] }
      = .ok ⟨"job-1", "Hero", "training", -16667/100, 17/20, 100, 200000⟩ := by
  refine ⟨?_, ?_, ?_⟩
  · norm_num [progressOf, round2, round_eq, min_def]
  · norm_num [progressOf, specProgress, round2, round_eq, min_def, max_def]
  · norm_num [pollTrainLoraHandler, List.find?, progressOf, round2, round_eq, min_def, emptyDB]

/-- C1, amended: the progress returned by a poll never exceeds 100 at any
poll time, `progress(T) = 0` and `progress(T + D) = 100`
(D = 120000 ms for training polls, 180000 ms for deployment polls); and
whenever the poll time is at or after the job's creation time
(`createdAt ≤ now`) it equals `clamp(0, 100, ((now − createdAt) / D) · 100)`
rounded to 2 decimal digits and in particular is nonnegative. -/
theorem C1_amended_progress (now T D : ℚ) (r : LoraTraining) (d : RemotionDeployment)
    (hD : 0 < D) :
    progressOf now T D ≤ 100 ∧
    progressOf T T D = 0 ∧
    progressOf (T + D) T D = 100 ∧
    (T ≤ now → progressOf now T D = specProgress now T D) ∧
    (T ≤ now → 0 ≤ progressOf now T D) ∧
    pollTrainLoraHandler r.id now { emptyDB with lora_trainings := [r] }
      = .ok { r with progress := progressOf now r.createdAt 120000 } ∧
    pollDeployHandler d.id now { emptyDB with remotion_deployments := [d] }
      = .ok { d with progress := progressOf now d.createdAt 180000 } := by
  have hmin0 : ∀ hT : T ≤ now, 0 ≤ min 100 ((now - T) / D * 100) := fun hT =>
    le_min (by norm_num) (mul_nonneg (div_nonneg (by linarith) hD.le) (by norm_num))
  refine ⟨?_, ?_, ?_, ?_, ?_, ?_, ?_⟩
  · calc progressOf now T D ≤ round2 100 := round2_le_of_le (min_le_left _ _)
    _ = 100 := round2_hundred
  · simp [progressOf, round2, round_eq]
    norm_num
  · rw [progressOf, show T + D - T = D by ring, div_self hD.ne']
    norm_num [round2, round_eq]
  · intro hT
    unfold progressOf specProgress
    rw [max_eq_right (hmin0 hT)]
  · intro hT
    calc (0 : ℚ) = round2 0 := round2_zero.symm
    _ ≤ progressOf now T D := round2_le_of_le (hmin0 hT)
  · simp [pollTrainLoraHandler, List.find?]
  · simp [pollDeployHandler, List.find?]

/-- C1, witness: the amended theorem evaluated at a training job created at
time 0, polled at time 60000 with D = 120000 (progress 50), with the
`createdAt ≤ now` side conditions discharged at 0 ≤ 60000. -/
theorem C1_amended_progress_witness :
    (0 : ℚ) < 120000 ∧ (0 : ℚ) ≤ 60000 ∧
    (progressOf 60000 0 120000 ≤ 100 ∧
     progressOf 0 0 120000 = 0 ∧
     progressOf (0 + 120000) 0 120000 = 100 ∧
     progressOf 60000 0 120000 = specProgress 60000 0 120000 ∧
     0 ≤ progressOf 60000 0 120000 ∧
     pollTrainLoraHandler (LoraTraining.mk "t1" "Hero" "training" 0 (17/20) 100 0).id 60000
       { emptyDB with lora_trainings := [LoraTraining.mk "t1" "Hero" "training" 0 (17/20) 100 0] }
       = .ok { LoraTraining.mk "t1" "Hero" "training" 0 (17/20) 100 0 with
                 progress := progressOf 60000 (LoraTraining.mk "t1" "Hero" "training" 0 (17/20) 100 0).createdAt 120000 } ∧
     pollDeployHandler (RemotionDeployment.mk "d1" "c1" "deploying" 0 15 "None" 0).id 60000
       { emptyDB with remotion_deployments := [RemotionDeployment.mk "d1" "c1" "deploying" 0 15 "None" 0] }
       = .ok { RemotionDeployment.mk "d1" "c1" "deploying" 0 15 "None" 0 with
                 progress := progressOf 60000 (RemotionDeployment.mk "d1" "c1" "deploying" 0 15 "None" 0).createdAt 180000 }) := by
  have A := C1_amended_progress 60000 0 120000
    (LoraTraining.mk "t1" "Hero" "training" 0 (17/20) 100 0)
    (RemotionDeployment.mk "d1" "c1" "deploying" 0 15 "None" 0) (by norm_num)
  exact ⟨by norm_num, by norm_num,
    A.1, A.2.1, A.2.2.1, A.2.2.2.1 (by norm_num), A.2.2.2.2.1 (by norm_num),
    A.2.2.2.2.2.1, A.2.2.2.2.2.2⟩

/-- Modelled from the claim's words (the spec's banding table): fixed
thresholds on the rounded total, `t ≥ 85 → Excellent`,
`75 ≤ t ≤ 84 → Good`, `60 ≤ t ≤ 74 → Fair`, `t ≤ 59 → Weak`, each paired
with its fixed feedback text. -/
def specBand (t : ℤ) : String × String :=
  if 85 ≤ t then ("Excellent", "Masterpiece level! All dimensions are outstanding.")
  else if 75 ≤ t ∧ t ≤ 84 then ("Good", "Consider: enhance saliency, add depth, improve drama")
  else if 60 ≤ t ∧ t ≤ 74 then ("Fair", "Work on composition, lighting, and focus")
  else ("Weak", "Major improvements needed in multiple areas")

/-- C2: the quality band assigned by `POST /api/score-image` agrees with
the spec's threshold table on every rounded total (in particular on all of
[0,100]): band(85) = Excellent, band(84) = band(75) = Good,
band(74) = band(60) = Fair, band(59) = Weak, each with its fixed feedback
text. -/
theorem C2_quality_banding (t : ℤ) :
    qualityBand t = specBand t ∧
    qualityBand 85 = ("Excellent", "Masterpiece level! All dimensions are outstanding.") ∧
    qualityBand 84 = ("Good", "Consider: enhance saliency, add depth, improve drama") ∧
    qualityBand 75 = ("Good", "Consider: enhance saliency, add depth, improve drama") ∧
    qualityBand 74 = ("Fair", "Work on composition, lighting, and focus") ∧
    qualityBand 60 = ("Fair", "Work on composition, lighting, and focus") ∧
    qualityBand 59 = ("Weak", "Major improvements needed in multiple areas") := by
  refine ⟨?_, by decide, by decide, by decide, by decide, by decide, by decide⟩
  unfold qualityBand specBand
  split_ifs <;> first | rfl | (exfalso; omega)

/-- C3, code bug: a `POST /api/deploy-remotion` request whose body has no
`duration` field is NOT rejected: the destructuring default `duration = 15`
fires before the `if (!duration)` guard, so the handler responds 200 (not
400) and persists a deployment row with duration 15, contradicting both the
spec's table and the handler's own "duration is required" error message. -/
theorem C3_missing_duration_not_rejected :
    (deployRemotionHandler ⟨none, none, none⟩ "job-1" "cfg-1" 0 emptyDB).1.statusCode = 200 ∧
    (deployRemotionHandler ⟨none, none, none⟩ "job-1" "cfg-1" 0 emptyDB).1
      ≠ .err 400 "duration is required" ∧
    (deployRemotionHandler ⟨none, none, none⟩ "job-1" "cfg-1" 0 emptyDB).2.remotion_deployments
      = [⟨"job-1", "cfg-1", "deploying", 0, 15, "None", 0⟩] := by
  decide

/-- C4: on every successful `POST /api/generate-json`, exactly one row is
appended; its `camera`, `style` and `negativePrompt` equal the fixed
defaults whenever the corresponding body field is omitted; and the
persisted serialized `configJson`, parsed back, equals exactly the
structured fields persisted in the same row (which the response echoes). -/
theorem C4_config_defaults_roundtrip (body : GenerateJsonBody) (configId : String) (now : ℚ)
    (db : DB) (hc : truthy body.character = true) (he : truthy body.environment = true)
    (hl : truthy body.lighting = true) :
    ∃ row : JsonConfigRecord,
      (generateJsonHandler body configId now db).2.json_configs = db.json_configs ++ [row] ∧
      (generateJsonHandler body configId now db).1 = .ok ⟨configId, row.configJson⟩ ∧
      row.configJson
        = ⟨row.character, row.environment, row.lighting, row.camera, row.style,
           row.negativePrompt⟩ ∧
      (body.camera = none → row.camera = "Standard") ∧
      (body.style = none → row.style = "Cinematic") ∧
      (body.negativePrompt = none → row.negativePrompt = "deformed, blurry, low quality") := by
  simp only [generateJsonHandler, hc, he, hl, Bool.and_self, if_true]
  exact ⟨_, rfl, rfl, rfl,
    fun h => by simp [h, orDefault],
    fun h => by simp [h, orDefault],
    fun h => by simp [h, orDefault]⟩

/-- C4, witness: the theorem evaluated on a body carrying only the three
required fields. -/
theorem C4_config_defaults_roundtrip_witness :
    truthy (GenerateJsonBody.mk (some "Aria") (some "Forest") (some "Dawn") none none none).character = true ∧
    truthy (GenerateJsonBody.mk (some "Aria") (some "Forest") (some "Dawn") none none none).environment = true ∧
    truthy (GenerateJsonBody.mk (some "Aria") (some "Forest") (some "Dawn") none none none).lighting = true ∧
    (∃ row : JsonConfigRecord,
      (generateJsonHandler (GenerateJsonBody.mk (some "Aria") (some "Forest") (some "Dawn") none none none)
          "cfg-1" 0 emptyDB).2.json_configs = emptyDB.json_configs ++ [row] ∧
      (generateJsonHandler (GenerateJsonBody.mk (some "Aria") (some "Forest") (some "Dawn") none none none)
          "cfg-1" 0 emptyDB).1 = .ok ⟨"cfg-1", row.configJson⟩ ∧
      row.configJson
        = ⟨row.character, row.environment, row.lighting, row.camera, row.style,
           row.negativePrompt⟩ ∧
      ((GenerateJsonBody.mk (some "Aria") (some "Forest") (some "Dawn") none none none).camera = none →
        row.camera = "Standard") ∧
      ((GenerateJsonBody.mk (some "Aria") (some "Forest") (some "Dawn") none none none).style = none →
        row.style = "Cinematic") ∧
      ((GenerateJsonBody.mk (some "Aria") (some "Forest") (some "Dawn") none none none).negativePrompt = none →
        row.negativePrompt = "deformed, blurry, low quality")) :=
  ⟨by decide, by decide, by decide,
   C4_config_defaults_roundtrip
     (GenerateJsonBody.mk (some "Aria") (some "Forest") (some "Dawn") none none none)
     "cfg-1" 0 emptyDB (by decide) (by decide) (by decide)⟩

/-- C5: on every successful `POST /api/validate-anatomy`, the overall score
is the mean of the three dimension scores rounded to the nearest integer;
the verdict is the "Excellent anatomy" one exactly when overall ≥ 90 and is
the "good anatomy, minor adjustments" one otherwise; the persisted issue
list is non-empty exactly when overall < 85; and each region's status/issue
annotation depends only on that region's own score against 90. -/
theorem C5_anatomy_scoring (imageUrl : Option String) (handsScore faceScore bodyScore : ℤ)
    (validationId : String) (now : ℚ) (db : DB) (hu : truthy imageUrl = true) :
    ∃ (resp : AnatomyResp) (row : AnatomyValidation),
      validateAnatomyHandler imageUrl handsScore faceScore bodyScore validationId now db
        = (.ok resp, { db with anatomy_validations := db.anatomy_validations ++ [row] }) ∧
      resp.overallScore = round ((handsScore + faceScore + bodyScore : ℚ) / 3) ∧
      (resp.verdict = "Excellent anatomy! ✅" ↔ 90 ≤ resp.overallScore) ∧
      (¬ 90 ≤ resp.overallScore → resp.verdict = "Good anatomy. Minor adjustments possible.") ∧
      (row.issues ≠ [] ↔ resp.overallScore < 85) ∧
      resp.hands.issues = (if handsScore < 90 then ["Finger positioning"] else []) ∧
      resp.hands.status = (if 90 ≤ handsScore then "Perfect" else "Good") ∧
      resp.face.status = (if 90 ≤ faceScore then "Symmetric" else "Acceptable") ∧
      resp.body.status = (if 90 ≤ bodyScore then "Perfect" else "Good") := by
  simp only [validateAnatomyHandler, hu, if_true]
  refine ⟨_, _, rfl, rfl, ?_, ?_, ?_, rfl, rfl, rfl, rfl⟩
  · by_cases h : 90 ≤ round ((handsScore + faceScore + bodyScore : ℚ) / 3)
    · simp [h]
    · simp only [h, if_false, iff_false]
      decide
  · intro h
    simp [h]
  · by_cases h : round ((handsScore + faceScore + bodyScore : ℚ) / 3) < 85
    · simp [h]
    · simp [h]

/-- C5, witness: the theorem evaluated at hands = 92, face = 95, body = 88
(overall 92, Excellent verdict, empty issues). -/
theorem C5_anatomy_scoring_witness :
    truthy (some "img") = true ∧
    (∃ (resp : AnatomyResp) (row : AnatomyValidation),
      validateAnatomyHandler (some "img") 92 95 88 "v1" 0 emptyDB
        = (.ok resp, { emptyDB with anatomy_validations := emptyDB.anatomy_validations ++ [row] }) ∧
      resp.overallScore = round ((92 + 95 + 88 : ℚ) / 3) ∧
      (resp.verdict = "Excellent anatomy! ✅" ↔ 90 ≤ resp.overallScore) ∧
      (¬ 90 ≤ resp.overallScore → resp.verdict = "Good anatomy. Minor adjustments possible.") ∧
      (row.issues ≠ [] ↔ resp.overallScore < 85) ∧
      resp.hands.issues = (if (92 : ℤ) < 90 then ["Finger positioning"] else []) ∧
      resp.hands.status = (if (90 : ℤ) ≤ 92 then "Perfect" else "Good") ∧
      resp.face.status = (if (90 : ℤ) ≤ 95 then "Symmetric" else "Acceptable") ∧
      resp.body.status = (if (90 : ℤ) ≤ 88 then "Perfect" else "Good")) :=
  ⟨by decide, C5_anatomy_scoring (some "img") 92 95 88 "v1" 0 emptyDB (by decide)⟩

/-- C6, code bug: `POST /api/deploy-remotion` is a creation route whose
required field is `duration`, yet a request missing `duration` is not
answered with a 400 and does insert a record (the table count changes from
0 to 1); the remaining creation routes do honour the claim. -/
theorem C6_missing_required_field_deploy_inserts :
    (deployRemotionHandler ⟨none, none, none⟩ "job-2" "cfg-2" 0 emptyDB).1.statusCode ≠ 400 ∧
    statsHandler (run [.deployRemotion ⟨none, none, none⟩ "job-2" "cfg-2" 0]) ≠ statsHandler emptyDB ∧
    (run [.deployRemotion ⟨none, none, none⟩ "job-2" "cfg-2" 0]).remotion_deployments.length = 1 := by
  decide

/-- Serving one creation request grows exactly the table of its route, by
one row when validation passes and not at all otherwise. -/
theorem step_table_lengths (db : DB) (r : Request) :
    (step db r).lora_trainings.length
        = db.lora_trainings.length + (if r.isTrainSuccess then 1 else 0) ∧
    (step db r).json_configs.length
        = db.json_configs.length + (if r.isConfigSuccess then 1 else 0) ∧
    (step db r).image_scores.length
        = db.image_scores.length + (if r.isScoreSuccess then 1 else 0) ∧
    (step db r).anatomy_validations.length
        = db.anatomy_validations.length + (if r.isAnatomySuccess then 1 else 0) ∧
    (step db r).remotion_deployments.length
        = db.remotion_deployments.length + (if r.isDeploySuccess then 1 else 0) := by
  cases r with
  | trainLora body jobId now =>
      simp only [step, trainLoraHandler, Request.isTrainSuccess, Request.isConfigSuccess,
        Request.isScoreSuccess, Request.isAnatomySuccess, Request.isDeploySuccess]
      split_ifs <;> simp_all
  | generateJson body configId now =>
      simp only [step, generateJsonHandler, Request.isTrainSuccess, Request.isConfigSuccess,
        Request.isScoreSuccess, Request.isAnatomySuccess, Request.isDeploySuccess]
      split_ifs <;> simp_all
  | scoreImage url d s e dp sg scoreId now =>
      simp only [step, scoreImageHandler, Request.isTrainSuccess, Request.isConfigSuccess,
        Request.isScoreSuccess, Request.isAnatomySuccess, Request.isDeploySuccess]
      split_ifs <;> simp_all
  | validateAnatomy url h f b validationId now =>
      simp only [step, validateAnatomyHandler, Request.isTrainSuccess, Request.isConfigSuccess,
        Request.isScoreSuccess, Request.isAnatomySuccess, Request.isDeploySuccess]
      split_ifs <;> simp_all
  | deployRemotion body jobId freshConfigId now =>
      simp only [step, deployRemotionHandler, Request.isTrainSuccess, Request.isConfigSuccess,
        Request.isScoreSuccess, Request.isAnatomySuccess, Request.isDeploySuccess]
      split_ifs <;> simp_all

/-- After serving a sequence of creation requests, each table holds its
initial rows plus one row per request of the corresponding route that
passed validation. -/
theorem run_table_lengths (reqs : List Request) (db : DB) :
    (reqs.foldl step db).lora_trainings.length
        = db.lora_trainings.length + reqs.countP Request.isTrainSuccess ∧
    (reqs.foldl step db).json_configs.length
        = db.json_configs.length + reqs.countP Request.isConfigSuccess ∧
    (reqs.foldl step db).image_scores.length
        = db.image_scores.length + reqs.countP Request.isScoreSuccess ∧
    (reqs.foldl step db).anatomy_validations.length
        = db.anatomy_validations.length + reqs.countP Request.isAnatomySuccess ∧
    (reqs.foldl step db).remotion_deployments.length
        = db.remotion_deployments.length + reqs.countP Request.isDeploySuccess := by
  induction reqs generalizing db with
  | nil => simp
  | cons r reqs ih =>
    obtain ⟨h1, h2, h3, h4, h5⟩ := ih (step db r)
    obtain ⟨g1, g2, g3, g4, g5⟩ := step_table_lengths db r
    simp only [List.foldl_cons, List.countP_cons, h1, h2, h3, h4, h5, g1, g2, g3, g4, g5]
    refine ⟨?_, ?_, ?_, ?_, ?_⟩ <;> split_ifs <;> simp_all <;> omega

/-- C7, counterexample: a successful `POST /api/validate-anatomy` inserts a
row into `anatomy_validations`, yet `GET /api/stats` reports exactly the
same counts as for the empty store — no reported count reflects the
anatomy-validations table, refuting "a count is reported for every record
table, including anatomy validations". -/
theorem C7_counterexample :
    (run [.validateAnatomy (some "img") 90 92 88 "v1" 0]).anatomy_validations.length = 1 ∧
    statsHandler (run [.validateAnatomy (some "img") 90 92 88 "v1" 0]) = statsHandler emptyDB := by
  refine ⟨?_, ?_⟩ <;>
    (norm_num [run, step, validateAnatomyHandler, truthy, emptyDB, statsHandler]; decide)

/-- C7, amended: `GET /api/stats` reports counts for exactly four of the
record tables — lora trainings, json configs, image scores and remotion
deployments — and after any sequence of creation requests each reported
count equals the number of requests against the corresponding route that
were served successfully; the anatomy-validations table is not reported. -/
theorem C7_amended_stats_counts (reqs : List Request) :
    statsHandler (run reqs)
      = ⟨reqs.countP Request.isTrainSuccess, reqs.countP Request.isConfigSuccess,
         reqs.countP Request.isScoreSuccess, reqs.countP Request.isDeploySuccess⟩ := by
  obtain ⟨h1, h2, h3, h4, h5⟩ := run_table_lengths reqs emptyDB
  simp only [statsHandler, run, h1, h2, h3, h5]
  simp [emptyDB]

/-- C8, counterexample: with 11 rows in `image_scores`, `GET /api/scores`
reports `total = 10` (the length of the truncated list), not the store
count 11, refuting "together with the total count of score records in the
store". -/
theorem C8_counterexample :
    (scoresHandler { emptyDB with
        image_scores := List.replicate 11 ⟨"s", "u", 70, 70, 70, 70, 70, 70, "fb", 0⟩ }).2 = 10 ∧
    ({ emptyDB with
        image_scores := List.replicate 11 ⟨"s", "u", 70, 70, 70, 70, 70, 70, "fb", 0⟩ } : DB).image_scores.length
      = 11 := by
  decide

/-- C8, amended: `GET /api/scores` returns the at-most-10 most recent score
records (newest first) together with the length of that returned list,
`min 10 count` — which equals the store count only when the store holds at
most 10 records. -/
theorem C8_amended_scores_listing (db : DB) :
    scoresHandler db = (db.image_scores.reverse.take 10, min 10 db.image_scores.length) := by
  simp [scoresHandler, List.length_take]

/-- C9: for every outcome of the anatomy draws within their attainable
ranges (hands ∈ [85,95], face ∈ [88,98], body ∈ [82,92]), the rounded
overall score is at least 85, so the persisted issues list is empty — the
`overall < 85` branch that attaches issues is unreachable. -/
theorem C9_anatomy_issues_unreachable (imageUrl : Option String)
    (handsScore faceScore bodyScore : ℤ) (validationId : String) (now : ℚ) (db : DB)
    (hu : truthy imageUrl = true)
    (hh1 : 85 ≤ handsScore) (hh2 : handsScore ≤ 95)
    (hf1 : 88 ≤ faceScore) (hf2 : faceScore ≤ 98)
    (hb1 : 82 ≤ bodyScore) (hb2 : bodyScore ≤ 92) :
    ∃ (resp : AnatomyResp) (row : AnatomyValidation),
      validateAnatomyHandler imageUrl handsScore faceScore bodyScore validationId now db
        = (.ok resp, { db with anatomy_validations := db.anatomy_validations ++ [row] }) ∧
      85 ≤ resp.overallScore ∧
      row.issues = [] := by
  have hsum : (255 : ℚ) ≤ (handsScore : ℚ) + faceScore + bodyScore := by
    have : (255 : ℤ) ≤ handsScore + faceScore + bodyScore := by omega
    exact_mod_cast this
  have h85 : (85 : ℤ) ≤ round (((handsScore : ℚ) + faceScore + bodyScore) / 3) := by
    rw [round_eq, Int.le_floor]
    push_cast
    linarith
  simp only [validateAnatomyHandler, hu, if_true]
  refine ⟨_, _, rfl, h85, ?_⟩
  simp only [not_lt.mpr h85, if_false]

/-- C9, witness: the theorem evaluated at hands = 85, face = 88, body = 82
(the minimal draws; overall is exactly 85 and no issues are attached). -/
theorem C9_anatomy_issues_unreachable_witness :
    truthy (some "img") = true ∧
    (85 : ℤ) ≤ 85 ∧ (85 : ℤ) ≤ 95 ∧ (88 : ℤ) ≤ 88 ∧ (88 : ℤ) ≤ 98 ∧
    (82 : ℤ) ≤ 82 ∧ (82 : ℤ) ≤ 92 ∧
    (∃ (resp : AnatomyResp) (row : AnatomyValidation),
      validateAnatomyHandler (some "img") 85 88 82 "v1" 0 emptyDB
        = (.ok resp, { emptyDB with anatomy_validations := emptyDB.anatomy_validations ++ [row] }) ∧
      85 ≤ resp.overallScore ∧
      row.issues = []) :=
  ⟨by decide, by decide, by decide, by decide, by decide, by decide, by decide,
   C9_anatomy_issues_unreachable (some "img") 85 88 82 "v1" 0 emptyDB (by decide)
     (by decide) (by decide) (by decide) (by decide) (by decide) (by decide)⟩

/-- C10: for every outcome of the image-score draws within their attainable
ranges (drama ∈ [60,90], saliency ∈ [65,95], emotion ∈ [60,90],
depth ∈ [70,100], signature ∈ [65,95]), the rounded total lies in [64,94],
so the Weak band is never returned, while Excellent, Good and Fair are all
attained by concrete draws in range. -/
theorem C10_score_total_range :
    (∀ (imageUrl : Option String) (drama saliency emotion depth signature : ℤ)
        (scoreId : String) (now : ℚ) (db : DB),
      truthy imageUrl = true →
      60 ≤ drama → drama ≤ 90 → 65 ≤ saliency → saliency ≤ 95 →
      60 ≤ emotion → emotion ≤ 90 → 70 ≤ depth → depth ≤ 100 →
      65 ≤ signature → signature ≤ 95 →
      ∃ t : ℤ,
        scoreRespTotal (scoreImageHandler imageUrl drama saliency emotion depth signature
          scoreId now db) = some t ∧
        64 ≤ t ∧ t ≤ 94 ∧
        scoreRespQuality (scoreImageHandler imageUrl drama saliency emotion depth signature
          scoreId now db) ≠ some "Weak") ∧
    scoreRespQuality (scoreImageHandler (some "img") 90 95 90 100 95 "a" 0 emptyDB)
      = some "Excellent" ∧
    scoreRespQuality (scoreImageHandler (some "img") 75 80 75 80 80 "a" 0 emptyDB)
      = some "Good" ∧
    scoreRespQuality (scoreImageHandler (some "img") 60 65 60 70 65 "a" 0 emptyDB)
      = some "Fair" := by
  refine ⟨?_, ?_, ?_, ?_⟩
  · intro imageUrl drama saliency emotion depth signature scoreId now db hu
      h1 h2 h3 h4 h5 h6 h7 h8 h9 h10
    have hlo : (320 : ℚ) ≤ (drama : ℚ) + saliency + emotion + depth + signature := by
      have : (320 : ℤ) ≤ drama + saliency + emotion + depth + signature := by omega
      exact_mod_cast this
    have hhi : (drama : ℚ) + saliency + emotion + depth + signature ≤ 470 := by
      have : drama + saliency + emotion + depth + signature ≤ (470 : ℤ) := by omega
      exact_mod_cast this
    have h64 : (64 : ℤ) ≤ round (((drama : ℚ) + saliency + emotion + depth + signature) / 5) := by
      rw [round_eq, Int.le_floor]
      push_cast
      linarith
    have h94 : round (((drama : ℚ) + saliency + emotion + depth + signature) / 5) ≤ 94 := by
      rw [round_eq]
      have : ⌊((drama : ℚ) + saliency + emotion + depth + signature) / 5 + 1 / 2⌋ < 95 := by
        rw [Int.floor_lt]
        push_cast
        linarith
      omega
    simp only [scoreImageHandler, hu, if_true, scoreRespTotal, scoreRespQuality]
    refine ⟨_, rfl, h64, h94, ?_⟩
    simp only [qualityBand]
    split_ifs <;> simp <;> omega
  · norm_num [scoreRespQuality, scoreImageHandler, truthy, qualityBand, round_eq]
    decide
  · norm_num [scoreRespQuality, scoreImageHandler, truthy, qualityBand, round_eq]
    decide
  · norm_num [scoreRespQuality, scoreImageHandler, truthy, qualityBand, round_eq]
    decide

/-- C10, witness: the universal part of the theorem evaluated at the
minimal draws (total 64, Fair, not Weak). -/
theorem C10_score_total_range_witness :
    truthy (some "img") = true ∧
    (60 : ℤ) ≤ 60 ∧ (60 : ℤ) ≤ 90 ∧ (65 : ℤ) ≤ 65 ∧ (65 : ℤ) ≤ 95 ∧
    (60 : ℤ) ≤ 60 ∧ (60 : ℤ) ≤ 90 ∧ (70 : ℤ) ≤ 70 ∧ (70 : ℤ) ≤ 100 ∧
    (65 : ℤ) ≤ 65 ∧ (65 : ℤ) ≤ 95 ∧
    (∃ t : ℤ,
      scoreRespTotal (scoreImageHandler (some "img") 60 65 60 70 65 "a" 0 emptyDB) = some t ∧
      64 ≤ t ∧ t ≤ 94 ∧
      scoreRespQuality (scoreImageHandler (some "img") 60 65 60 70 65 "a" 0 emptyDB)
        ≠ some "Weak") :=
  ⟨by decide, by decide, by decide, by decide, by decide, by decide, by decide, by decide,
   by decide, by decide, by decide,
   C10_score_total_range.1 (some "img") 60 65 60 70 65 "a" 0 emptyDB (by decide)
     (by decide) (by decide) (by decide) (by decide) (by decide) (by decide) (by decide)
     (by decide) (by decide) (by decide)⟩

end Nexus
